import Mathlib

/-!
Verification development for a small Flask service (`main.py`) that validates
YouTube URLs, filters downloadable stream formats, and proxies downloads.

The definitions below are a shallow embedding of the Python source:
pure helpers (`validate_youtube_url`, `sanitize_filename`) become Lean
functions on `List Char` / `String`; the two route handlers become total
functions from a request model (parsed JSON body plus the outcomes of the
external resolver calls) to an HTTP response paired with a resource-effect
record; machine-level concerns do not arise (Python ints are unbounded).
-/

namespace YtApi

/-! ### JSON values (the parsed request body)

Python's `json` module produces dicts, lists, strings, ints, floats, bools
and `None`.  The claims only exercise objects, strings, ints, bools and
null, so arrays and floats are omitted (no claim mentions them). -/

inductive JVal where
  | null
  | bool (b : Bool)
  | int (n : Int)
  | str (s : String)
  | obj (kvs : List (String × JVal))

/-- Python truthiness (`not data`): `None`, `False`, `0`, `""` and `{}` are falsy. -/
def pyFalsy : JVal → Bool
  | .null => true
  | .bool b => !b
  | .int n => n == 0
  | .str s => s == ""
  | .obj kvs => kvs.isEmpty

/-- Is the first list a contiguous substring of the second? -/
def isSubstr (needle : List Char) : List Char → Bool
  | [] => needle.isEmpty
  | c :: cs =>
    (match strip0 needle (c :: cs) with
     | some _ => true
     | none => false) || isSubstr needle cs
where
  /-- Strip an exact literal from the front (shared with the URL matcher). -/
  strip0 : List Char → List Char → Option (List Char)
  | [], s => some s
  | _ :: _, [] => none
  | p :: ps, c :: cs => if p = c then strip0 ps cs else none

/-- Python `key in data`.  For a dict it tests the keys; for a string it is a
substring test; for an int/bool/None it raises `TypeError` (modelled as
`Except.error`), which the handlers' blanket `except Exception` turns into 500. -/
def pyContains (v : JVal) (k : String) : Except Unit Bool :=
  match v with
  | .obj kvs => .ok (kvs.any (fun kv => kv.1 == k))
  | .str s => .ok (isSubstr k.data s.data)
  | _ => .error ()

/-- Python `data[key]` on a parsed JSON body: dict lookup, `KeyError`/`TypeError`
otherwise (modelled as `Except.error`). -/
def pyIndex (v : JVal) (k : String) : Except Unit JVal :=
  match v with
  | .obj kvs =>
    match kvs.find? (fun kv => kv.1 == k) with
    | some kv => .ok kv.2
    | none => .error ()
  | _ => .error ()

/-- ASCII whitespace stripped by `str.strip()` (space, tab, LF, CR, VT, FF). -/
def pyWs (c : Char) : Bool :=
  c == ' ' || c == '\t' || c == '\n' || c == '\r' || c == Char.ofNat 11 || c == Char.ofNat 12

/-- Python `str.strip()`: drop whitespace from both ends. -/
def pyStrip (l : List Char) : List Char :=
  ((l.dropWhile pyWs).reverse.dropWhile pyWs).reverse

def pyStripS (s : String) : String := ⟨pyStrip s.data⟩

/-- Python `isinstance(x, int)`: true for ints and also for bools
(`bool` is a subclass of `int` in Python). -/
def pyIsInt : JVal → Bool
  | .int _ => true
  | .bool _ => true
  | _ => false

/-- The integer value of a Python int-like object (`True == 1`, `False == 0`). -/
def pyToInt : JVal → Int
  | .int n => n
  | .bool b => if b then 1 else 0
  | _ => 0

/-- Python `a or b` for an optional string `a` (used for
`stream.resolution or 'audio only'`): `None` and `""` are falsy. -/
def pyOrStr (o : Option String) (d : String) : String :=
  match o with
  | some s => if s == "" then d else s
  | none => d

/-! ### URL validator (`validate_youtube_url`, main.py lines 45-54)

The source matches the URL against
`(https?://)?(www\.)?(youtube|youtu|youtube-nocookie)\.(com|be)/`
`(watch\?v=|embed/|v/|.+\?v=)?([^&=%\?]{11})`
with `re.match` (anchored at the start only; trailing input is ignored).
`bool(pattern.match(url))` is true iff SOME decomposition of a prefix of the
input into the groups exists, so the embedding enumerates the finitely many
alternatives (the `.+` branch by scanning split points). -/

/-- Characters excluded from the 11-character id group `[^&=%\?]`. -/
def badIdChar (c : Char) : Bool :=
  c == '&' || c == '=' || c == '%' || c == '?'

/-- The group `[^&=%\?]{11}`: at least 11 characters remain and the first 11
avoid the excluded set (the regex ends here, so trailing input is ignored). -/
def idOk11 (r : List Char) : Bool :=
  decide (11 ≤ r.length) && (r.take 11).all (fun c => !badIdChar c)

/-- Strip an exact literal from the front of the input
(`none` when it is not a prefix). -/
def strip : List Char → List Char → Option (List Char)
  | [], s => some s
  | _ :: _, [] => none
  | p :: ps, c :: cs => if p = c then strip ps cs else none

/-- The `.+\?v=` alternative of group 5 followed by the id group: some
nonempty newline-free run of characters, then `?v=`, then 11 id characters. -/
def qvScan : List Char → Bool
  | [] => false
  | c :: rest =>
    if c = '\n' then false
    else
      (match strip "?v=".data rest with
       | some r => idOk11 r
       | none => false) || qvScan rest

/-- Group 5 `(watch\?v=|embed/|v/|.+\?v=)?` followed by the id group. -/
def check5 (r : List Char) : Bool :=
  idOk11 r
  || (match strip "watch?v=".data r with
      | some x => idOk11 x
      | none => false)
  || (match strip "embed/".data r with
      | some x => idOk11 x
      | none => false)
  || (match strip "v/".data r with
      | some x => idOk11 x
      | none => false)
  || qvScan r

/-- Alternatives of the optional scheme group `(https?://)?`. -/
def protoOpts : List (List Char) := ["".data, "http://".data, "https://".data]

/-- Alternatives of the optional `(www\.)?` group. -/
def wwwOpts : List (List Char) := ["".data, "www.".data]

/-- Alternatives of the domain group `(youtube|youtu|youtube-nocookie)`. -/
def domOpts : List (List Char) := ["youtube".data, "youtu".data, "youtube-nocookie".data]

/-- Alternatives of the TLD group `(com|be)`. -/
def tldOpts : List (List Char) := ["com".data, "be".data]

/-- `bool(youtube_regex.match(url))`: does any choice of alternatives match a
prefix of the input? -/
def ytMatchL (s : List Char) : Bool :=
  protoOpts.any (fun p =>
    wwwOpts.any (fun w =>
      domOpts.any (fun d =>
        tldOpts.any (fun t =>
          match strip (p ++ w ++ d ++ ".".data ++ t ++ "/".data) s with
          | some r => check5 r
          | none => false))))

/-- `validate_youtube_url` (main.py lines 45-54): falsy or non-string input
returns `False`; otherwise the anchored regex match decides. -/
def validate_youtube_url : JVal → Bool
  | .str s => if s == "" then false else ytMatchL s.data
  | _ => false

/-! ### Filename sanitizer (`sanitize_filename`, main.py lines 56-64) -/

/-- The character class `[<>:"/\\|?*]` replaced by `re.sub`. -/
def badFsChar (c : Char) : Bool :=
  c == '<' || c == '>' || c == ':' || c == '"' || c == '/' ||
  c == '\\' || c == '|' || c == '?' || c == '*'

/-- `re.sub(r'[<>:"/\\|?*]', '_', filename)`: replace each unsafe character
with an underscore. -/
def subBad (x : List Char) : List Char :=
  x.map (fun c => if badFsChar c then '_' else c)

/-- Index of the last `'.'` in the string, if any (`str.rfind('.')`). -/
def lastDot (y : List Char) : Option Nat :=
  (y.reverse.findIdx? (fun c => c == '.')).map (fun i => y.length - 1 - i)

/-- `os.path.splitext` restricted to separator-free inputs (the sanitizer's
argument contains no `/` or `\` after substitution): split at the last dot
unless every character before it is a dot (leading dots are not an extension). -/
def splitext (y : List Char) : List Char × List Char :=
  match lastDot y with
  | none => (y, [])
  | some d =>
    if (y.take d).all (fun c => c == '.') then (y, [])
    else (y.take d, y.drop d)

/-- `sanitize_filename` (main.py lines 56-64): substitute unsafe characters,
then if the result exceeds 100 characters keep the first 90 characters of the
base name and reattach the extension. -/
def sanitize_filename (x : List Char) : List Char :=
  let f := subBad x
  if 100 < f.length then
    let p := splitext f
    p.1.take 90 ++ p.2
  else f

/-- String-level wrapper of `sanitize_filename`. -/
def sanitizeStr (s : String) : String := ⟨sanitize_filename s.data⟩

/-! ### Streams, formats, responses -/

/-- `ALLOWED_EXTENSIONS` (main.py line 42). -/
def ALLOWED_EXTENSIONS : List String := ["mp4", "webm", "mp3", "wav"]

/-- `MAX_DOWNLOAD_SIZE` (main.py line 43): 100 MiB. -/
def MAX_DOWNLOAD_SIZE : Nat := 100 * 1024 * 1024

/-- A pytube stream descriptor, restricted to the fields the handlers read. -/
structure Stream where
  progressive : Bool
  mime_type : Option String
  resolution : Option String
  itag : Int
  filesize : Option Nat
deriving DecidableEq

/-- Video metadata (`yt.title`, `yt.length`, `yt.author`). -/
structure Meta where
  title : String
  length : Nat
  author : String
deriving DecidableEq

/-- Suffix after the last `'/'` (`s.split('/')[-1]`). -/
def lastComp (l : List Char) : List Char :=
  l.foldl (fun acc c => if c = '/' then [] else acc ++ [c]) []

/-- `stream.mime_type.split('/')[-1] if stream.mime_type else 'unknown'`
(main.py lines 121 and 193). -/
def fileTypeOf (s : Stream) : String :=
  match s.mime_type with
  | some m => if m == "" then "unknown" else ⟨lastComp m.data⟩
  | none => "unknown"

/-- One entry of the `/info` formats list (main.py lines 123-128). -/
structure Fmt where
  quality : String
  type : String
  itag : Int
  filesize : Option Nat
deriving DecidableEq

/-- Build one formats entry from a stream. -/
def fmtOf (s : Stream) : Fmt :=
  ⟨pyOrStr s.resolution "audio only", fileTypeOf s, s.itag, s.filesize⟩

/-- The `/info` formats loop (main.py lines 117-128): keep streams whose
container type is allow-listed, in order. -/
def mkFormats : List Stream → List Fmt
  | [] => []
  | s :: rest =>
    if ALLOWED_EXTENSIONS.contains (fileTypeOf s) then fmtOf s :: mkFormats rest
    else mkFormats rest

/-- An HTTP response body as the handlers construct it. -/
inductive RespBody where
  | err (msg : String)
  | errPair (error msg : String)
  | file (filename : String) (mime : Option String)
  | infoBody (title : String) (length : Nat) (author : String) (formats : List Fmt)
deriving DecidableEq

/-- An HTTP response: status code and body. -/
structure Resp where
  status : Nat
  body : RespBody
deriving DecidableEq

/-- Resource effects of handling one request: how many times the external
resolver was consulted, and how many temporary directories were created
and removed. -/
structure Eff where
  resolverCalls : Nat
  tempDirsCreated : Nat
  tempDirsRemoved : Nat
deriving DecidableEq

/-- No effects yet. -/
def eff0 : Eff := ⟨0, 0, 0⟩

/-- The resolver was called, no temporary storage touched. -/
def effResolved : Eff := ⟨1, 0, 0⟩

/-- The resolver was called and `tempfile.mkdtemp()` ran; nothing in the
source ever removes the directory. -/
def effTemp : Eff := ⟨1, 1, 0⟩

/-- The 400 error handler (`bad_request`, main.py lines 66-68): the body
carries `str(error)` verbatim in its `message` field. -/
def bad_request (errText : String) : Resp :=
  ⟨400, .errPair "Bad request" errText⟩

/-- `cleanup_temp_files` (main.py lines 228-232): the body is `pass`, so the
teardown hook changes nothing. -/
def cleanup_temp_files (e : Eff) : Eff := e

/-! ### The `/info` handler (`get_video_info`, main.py lines 84-149)

The external calls `YouTube(url)` / `yt.title` / `yt.streams.filter(...)`
are modelled by the outcome recorded in the request: which exception (if
any) the resolver raised, or the metadata and progressive stream list it
produced. -/

/-- Outcome of the resolver interaction during `/info`: `yt.title` raising
`VideoUnavailable` / `RegexMatchError` / anything else, the formats loop
raising, or metadata plus the full stream list. -/
inductive ResolveInfo where
  | unavailable
  | regexErr
  | accessErr (m : String)
  | streamsErr (meta : Meta) (m : String)
  | ok (meta : Meta) (streams : List Stream)

/-- An `/info` request: content type flag, result of `request.get_json()`
(`Except.error m` models the `BadRequest(m)` Flask raises on a malformed
body), and the resolver outcome. -/
structure InfoReq where
  isJson : Bool
  getJson : Except String JVal
  resolve : ResolveInfo

/-- `get_video_info` (main.py lines 84-149). -/
def get_video_info (req : InfoReq) : Resp :=
  if !req.isJson then ⟨400, .err "Request must be JSON"⟩
  else
    match req.getJson with
    | .error m => ⟨400, .err m⟩
    | .ok data =>
      if pyFalsy data then ⟨400, .err "Missing 'url' parameter"⟩
      else
        match pyContains data "url" with
        | .error _ => ⟨500, .err "Internal server error"⟩
        | .ok hasUrl =>
          if !hasUrl then ⟨400, .err "Missing 'url' parameter"⟩
          else
            match pyIndex data "url" with
            | .error _ => ⟨500, .err "Internal server error"⟩
            | .ok v =>
              match v with
              | .str s =>
                let url := pyStripS s
                if !validate_youtube_url (.str url) then ⟨400, .err "Invalid YouTube URL"⟩
                else
                  match req.resolve with
                  | .unavailable => ⟨404, .err "Video is unavailable or private"⟩
                  | .regexErr => ⟨400, .err "Invalid YouTube URL format"⟩
                  | .accessErr _ => ⟨500, .err "Failed to access video"⟩
                  | .streamsErr _ _ => ⟨500, .err "Failed to retrieve video formats"⟩
                  | .ok meta streams =>
                    let formats := mkFormats (streams.filter (fun s => s.progressive))
                    if formats.isEmpty then ⟨404, .err "No downloadable formats available"⟩
                    else ⟨200, .infoBody meta.title meta.length meta.author formats⟩
              | _ => ⟨500, .err "Internal server error"⟩

/-! ### The `/download` handler (`download_video`, main.py lines 151-225) -/

/-- Outcome of `YouTube(url)` / `yt.streams.get_by_itag(itag)` during
`/download`. -/
inductive ResolveDl where
  | unavailable
  | accessErr (m : String)
  | ok (found : Option Stream)

/-- A `/download` request: content type flag, `request.get_json()` result,
the resolver outcome, and the outcome of `stream.download(...)` (the file
path it returns, or the exception it raises). -/
structure DlReq where
  isJson : Bool
  getJson : Except String JVal
  resolve : ResolveDl
  downloadResult : Except String String

/-- `download_video` (main.py lines 151-225), paired with the resource
effects of the request (resolver calls, temporary directories created and
removed).  Nothing on any path removes the `mkdtemp` directory. -/
def download_video (req : DlReq) : Resp × Eff :=
  if !req.isJson then (⟨400, .err "Request must be JSON"⟩, eff0)
  else
    match req.getJson with
    | .error m => (⟨400, .err m⟩, eff0)
    | .ok data =>
      if pyFalsy data then (⟨400, .err "Missing 'url' or 'itag' parameter"⟩, eff0)
      else
        match pyContains data "url" with
        | .error _ => (⟨500, .err "Internal server error"⟩, eff0)
        | .ok hasUrl =>
          if !hasUrl then (⟨400, .err "Missing 'url' or 'itag' parameter"⟩, eff0)
          else
            match pyContains data "itag" with
            | .error _ => (⟨500, .err "Internal server error"⟩, eff0)
            | .ok hasItag =>
              if !hasItag then (⟨400, .err "Missing 'url' or 'itag' parameter"⟩, eff0)
              else
                match pyIndex data "url" with
                | .error _ => (⟨500, .err "Internal server error"⟩, eff0)
                | .ok uv =>
                  match uv with
                  | .str s =>
                    let url := pyStripS s
                    match pyIndex data "itag" with
                    | .error _ => (⟨500, .err "Internal server error"⟩, eff0)
                    | .ok itag =>
                      if !validate_youtube_url (.str url) then
                        (⟨400, .err "Invalid YouTube URL"⟩, eff0)
                      else if !pyIsInt itag || pyToInt itag ≤ 0 then
                        (⟨400, .err "Invalid itag parameter"⟩, eff0)
                      else
                        match req.resolve with
                        | .unavailable =>
                          (⟨404, .err "Video is unavailable or private"⟩, effResolved)
                        | .accessErr _ =>
                          (⟨500, .err "Failed to access video"⟩, effResolved)
                        | .ok none =>
                          (⟨404, .err "Requested format not available"⟩, effResolved)
                        | .ok (some st) =>
                          if (match st.filesize with
                              | some n => !(n == 0) && decide (MAX_DOWNLOAD_SIZE < n)
                              | none => false) then
                            (⟨413, .err "File too large for download"⟩, effResolved)
                          else if !(ALLOWED_EXTENSIONS.contains (fileTypeOf st)) then
                            (⟨400, .err "File type not allowed"⟩, effResolved)
                          else
                            match req.downloadResult with
                            | .error _ => (⟨500, .err "Failed to download video"⟩, effTemp)
                            | .ok filePath =>
                              (⟨200, .file (sanitizeStr ⟨lastComp filePath.data⟩) st.mime_type⟩,
                               effTemp)
                  | _ => (⟨500, .err "Internal server error"⟩, eff0)

/-! ### Spec-side definitions (for the refinement claims about the URL
validator) -/

/-- A plausible video-id character (alphanumeric, `-`, `_`), following the
spec's "11-character video-id token". -/
def specIdChar (c : Char) : Bool := c.isAlphanum || c == '-' || c == '_'

/-- An 11-character id token at the front of the remainder (trailing query
text permitted). -/
def specIdOk (r : List Char) : Bool :=
  decide (11 ≤ r.length) && (r.take 11).all specIdChar

/-- The three recognized link shapes named by the spec: standard watch links,
shortened links, embed links. -/
def specCores : List (List Char) :=
  ["youtube.com/watch?v=".data, "youtu.be/".data, "youtube.com/embed/".data]

/-- Modelled from the spec (section 4.1): a well-formed standard watch,
shortened, or embed link of the target platform containing an 11-character
video-id token, with optional scheme and `www.` parts. -/
def specRecognized (s : List Char) : Bool :=
  protoOpts.any (fun p =>
    wwwOpts.any (fun w =>
      specCores.any (fun core =>
        match strip (p ++ w ++ core) s with
        | some r => specIdOk r
        | none => false)))

/-- The fixed message literals the source ever places in a response body
itself (every `jsonify({'error': ...})` literal plus the two handler
prefixes). -/
def genericMsgs : List String :=
  ["Request must be JSON", "Missing 'url' parameter",
   "Missing 'url' or 'itag' parameter", "Invalid YouTube URL",
   "Invalid itag parameter", "Invalid YouTube URL format",
   "Video is unavailable or private", "Failed to access video",
   "Failed to retrieve video formats", "No downloadable formats available",
   "Requested format not available", "File too large for download",
   "File type not allowed", "Failed to download video",
   "Internal server error", "Bad request", "Not found"]

/-- The message strings carried by a response body. -/
def bodyMsgs : RespBody → List String
  | .err m => [m]
  | .errPair a b => [a, b]
  | _ => []

/-- A `/download` request whose body is the JSON object
`{"url": u, "itag": iv}` with given resolver and download outcomes. -/
def mkDlReq (u : String) (iv : JVal) (res : ResolveDl)
    (dl : Except String String) : DlReq :=
  ⟨true, .ok (.obj [("url", .str u), ("itag", iv)]), res, dl⟩

/-- An `/info` request whose body is the JSON object `{"url": u}`. -/
def mkInfoReq (u : String) (res : ResolveInfo) : InfoReq :=
  ⟨true, .ok (.obj [("url", .str u)]), res⟩

/-! ### Helper lemmas: the URL matcher -/

/-- Stripping a literal from itself followed by anything succeeds. -/
theorem strip_append (p r : List Char) : strip p (p ++ r) = some r := by
  induction p with
  | nil => rfl
  | cons c cs ih => simp [strip, ih]

/-- A successful strip decomposes the input. -/
theorem strip_eq_some {p s r : List Char} (h : strip p s = some r) :
    s = p ++ r := by
  induction p generalizing s with
  | nil => simp only [strip, Option.some.injEq] at h; simp [h]
  | cons c cs ih =>
    cases s with
    | nil => exact absurd h (by simp [strip])
    | cons a as =>
      by_cases hc : c = a
      · subst hc
        rw [strip, if_pos rfl] at h
        simp [ih h]
      · rw [strip, if_neg hc] at h
        exact absurd h (by simp)

/-- A spec-side id character is never one of the regex's excluded characters. -/
theorem specIdChar_not_bad (c : Char) (h : specIdChar c = true) :
    badIdChar c = false := by
  cases hb : badIdChar c
  · rfl
  · exfalso
    have hcs : ((c = '&' ∨ c = '=') ∨ c = '%') ∨ c = '?' := by
      simpa [badIdChar, Bool.or_eq_true, beq_iff_eq] using hb
    rcases hcs with ((h1 | h1) | h1) | h1 <;> subst h1 <;> exact absurd h (by decide)

/-- A spec-side 11-character id satisfies the regex's id group. -/
theorem specIdOk_imp_idOk11 (r : List Char) (h : specIdOk r = true) :
    idOk11 r = true := by
  rw [specIdOk, Bool.and_eq_true] at h
  rw [idOk11, Bool.and_eq_true]
  refine ⟨h.1, ?_⟩
  rw [List.all_eq_true]
  intro c hc
  have := List.all_eq_true.mp h.2 c hc
  simp only [Bool.not_eq_true']
  exact specIdChar_not_bad c this

/-- Introduction rule for the regex matcher: a decomposition into scheme,
`www.`, domain, TLD, and a matching remainder yields a match. -/
theorem ytMatch_of_parts (p w d t x : List Char)
    (hp : p ∈ protoOpts) (hw : w ∈ wwwOpts) (hd : d ∈ domOpts)
    (ht : t ∈ tldOpts) (hx : check5 x = true) :
    ytMatchL (p ++ w ++ d ++ ".".data ++ t ++ "/".data ++ x) = true := by
  unfold ytMatchL
  rw [List.any_eq_true]
  refine ⟨p, hp, ?_⟩
  rw [List.any_eq_true]
  refine ⟨w, hw, ?_⟩
  rw [List.any_eq_true]
  refine ⟨d, hd, ?_⟩
  rw [List.any_eq_true]
  refine ⟨t, ht, ?_⟩
  rw [strip_append]
  exact hx

/-- The empty group-5 alternative: an id right after the domain matches. -/
theorem check5_of_idOk11 (r : List Char) (h : idOk11 r = true) :
    check5 r = true := by
  unfold check5
  rw [h]
  rfl

/-- The `watch?v=` alternative of group 5. -/
theorem check5_watch (r : List Char) (h : idOk11 r = true) :
    check5 ("watch?v=".data ++ r) = true := by
  unfold check5
  rw [strip_append]
  simp [h]

/-- The `embed/` alternative of group 5. -/
theorem check5_embed (r : List Char) (h : idOk11 r = true) :
    check5 ("embed/".data ++ r) = true := by
  unfold check5
  rw [strip_append]
  simp [h]

/-! ### Helper lemmas: the filename sanitizer -/

/-- Substitution output never contains an unsafe character. -/
theorem subBad_noBad (x : List Char) :
    (subBad x).all (fun c => !badFsChar c) = true := by
  induction x with
  | nil => rfl
  | cons c cs ih =>
    simp only [subBad, List.map_cons, List.all_cons, Bool.and_eq_true] at *
    refine ⟨?_, ih⟩
    by_cases h : badFsChar c
    · simp [h]
      decide
    · simp [h]

/-- The two `splitext` pieces concatenate back to the input. -/
theorem splitext_append (y : List Char) :
    (splitext y).1 ++ (splitext y).2 = y := by
  unfold splitext
  cases lastDot y with
  | none => simp
  | some d =>
    by_cases h : (y.take d).all (fun c => c == '.')
    · simp [h]
    · simp [h, List.take_append_drop]

/-- The sanitizer's output never contains an unsafe character. -/
theorem sanitize_noBad (x : List Char) :
    (sanitize_filename x).all (fun c => !badFsChar c) = true := by
  unfold sanitize_filename
  by_cases h : 100 < (subBad x).length
  · simp only [h, if_true]
    have hy := subBad_noBad x
    rw [List.all_eq_true] at hy ⊢
    intro c hc
    rcases List.mem_append.mp hc with h1 | h2
    · exact hy c ((splitext_append (subBad x)) ▸
        List.mem_append_left _ (List.take_subset _ _ h1))
    · exact hy c ((splitext_append (subBad x)) ▸ List.mem_append_right _ h2)
  · simp only [h, if_false]
    exact subBad_noBad x

/-- Substitution is the identity on strings without unsafe characters. -/
theorem subBad_id_of_noBad (l : List Char)
    (h : l.all (fun c => !badFsChar c) = true) : subBad l = l := by
  induction l with
  | nil => rfl
  | cons c cs ih =>
    simp only [List.all_cons, Bool.and_eq_true, Bool.not_eq_true'] at h
    simp only [subBad, List.map_cons, h.1, if_false]
    exact congrArg _ (ih h.2)

/-! ### Helper lemmas: the download handler -/

/-- A well-formed `/download` request (JSON object body, valid URL, valid
itag) runs the request-validation prefix and reaches the resolver stage. -/
theorem download_video_resolver_stage (u : String) (iv : JVal)
    (res : ResolveDl) (dl : Except String String)
    (hvu : validate_youtube_url (.str (pyStripS u)) = true)
    (hit : pyIsInt iv = true) (hpos : 0 < pyToInt iv) :
    download_video (mkDlReq u iv res dl) =
      match res with
      | .unavailable => (⟨404, .err "Video is unavailable or private"⟩, effResolved)
      | .accessErr _ => (⟨500, .err "Failed to access video"⟩, effResolved)
      | .ok none => (⟨404, .err "Requested format not available"⟩, effResolved)
      | .ok (some st) =>
        if (match st.filesize with
            | some n => !(n == 0) && decide (MAX_DOWNLOAD_SIZE < n)
            | none => false) then
          (⟨413, .err "File too large for download"⟩, effResolved)
        else if !(ALLOWED_EXTENSIONS.contains (fileTypeOf st)) then
          (⟨400, .err "File type not allowed"⟩, effResolved)
        else
          match dl with
          | .error _ => (⟨500, .err "Failed to download video"⟩, effTemp)
          | .ok filePath =>
            (⟨200, .file (sanitizeStr ⟨lastComp filePath.data⟩) st.mime_type⟩, effTemp) := by
  have hne : (pyToInt iv ≤ 0) = False := eq_false (not_le.mpr hpos)
  simp +decide [download_video, mkDlReq, pyFalsy, pyContains, pyIndex, hvu, hit, hne]

/-! ### Claim C1 -/

/-- C1 counterexample: a resolved stream with disallowed container type
`mov` AND a known 200 MiB size is rejected with 413 (FileTooLarge), not
400 (TypeNotAllowed): the size check runs first (main.py line 189), so a
disallowed type is NOT rejected with 400 "regardless of its size". -/
theorem c1_size_check_precedes_type_check :
    download_video (mkDlReq "https://www.youtube.com/watch?v=abcdefghijk" (.int 22)
        (.ok (some ⟨true, some "video/mov", some "720p", 22, some (200 * 1024 * 1024)⟩))
        (.ok "x")) =
      (⟨413, .err "File too large for download"⟩, effResolved) ∧
    ALLOWED_EXTENSIONS.contains
      (fileTypeOf ⟨true, some "video/mov", some "720p", 22, some (200 * 1024 * 1024)⟩) = false ∧
    (download_video (mkDlReq "https://www.youtube.com/watch?v=abcdefghijk" (.int 22)
        (.ok (some ⟨true, some "video/mov", some "720p", 22, some (200 * 1024 * 1024)⟩))
        (.ok "x"))).1.status ≠ 400 := by
  refine ⟨by decide, by decide, by decide⟩

/-- C1 (amended): for every resolved stream, a known byte size over 100 MiB
is rejected with 413 (FileTooLarge) regardless of type; a container type
outside the allow-list is rejected with 400 (TypeNotAllowed) whenever the
size check passes — i.e. when the size is unknown (which passes the size
check) or known and within the limit; when both gates would fire, the size
gate wins. -/
theorem c1_format_policy (u : String) (iv : JVal) (st : Stream)
    (dl : Except String String)
    (hvu : validate_youtube_url (.str (pyStripS u)) = true)
    (hit : pyIsInt iv = true) (hpos : 0 < pyToInt iv) :
    (∀ n, st.filesize = some n → MAX_DOWNLOAD_SIZE < n →
      download_video (mkDlReq u iv (.ok (some st)) dl) =
        (⟨413, .err "File too large for download"⟩, effResolved)) ∧
    (st.filesize = none → ALLOWED_EXTENSIONS.contains (fileTypeOf st) = false →
      download_video (mkDlReq u iv (.ok (some st)) dl) =
        (⟨400, .err "File type not allowed"⟩, effResolved)) ∧
    (∀ n, st.filesize = some n → n ≤ MAX_DOWNLOAD_SIZE →
      ALLOWED_EXTENSIONS.contains (fileTypeOf st) = false →
      download_video (mkDlReq u iv (.ok (some st)) dl) =
        (⟨400, .err "File type not allowed"⟩, effResolved)) := by
  have hred := download_video_resolver_stage u iv (.ok (some st)) dl hvu hit hpos
  refine ⟨?_, ?_, ?_⟩
  · intro n hn hgt
    rw [hred]
    have h0 : (n == 0) = false := by
      simp only [beq_eq_false_iff_ne, ne_eq]
      have : 0 < MAX_DOWNLOAD_SIZE := by decide
      omega
    simp [hn, h0, hgt]
  · intro hn hft
    rw [hred]
    dsimp only
    rw [hn, hft]
    rfl
  · intro n hn hle hft
    rw [hred]
    have hnot : decide (MAX_DOWNLOAD_SIZE < n) = false := by
      simp only [decide_eq_false_iff_not, not_lt]
      exact hle
    dsimp only
    rw [hn, hft]
    simp only [hnot, Bool.and_false, Bool.not_false, if_true]
    rfl

/-- C1 witness: the amended policy at concrete streams — an over-limit mp4
stream (413), an unknown-size mov stream (400), and a small mov stream
(400). -/
theorem c1_format_policy_witness :
    download_video (mkDlReq "https://www.youtube.com/watch?v=abcdefghijk" (.int 22)
        (.ok (some ⟨true, some "video/mp4", some "720p", 22, some (200 * 1024 * 1024)⟩))
        (.ok "x")) =
      (⟨413, .err "File too large for download"⟩, effResolved) ∧
    download_video (mkDlReq "https://www.youtube.com/watch?v=abcdefghijk" (.int 22)
        (.ok (some ⟨true, some "video/mov", some "720p", 22, none⟩)) (.ok "x")) =
      (⟨400, .err "File type not allowed"⟩, effResolved) ∧
    download_video (mkDlReq "https://www.youtube.com/watch?v=abcdefghijk" (.int 22)
        (.ok (some ⟨true, some "video/mov", some "720p", 22, some 1000⟩)) (.ok "x")) =
      (⟨400, .err "File type not allowed"⟩, effResolved) := by
  refine ⟨(c1_format_policy "https://www.youtube.com/watch?v=abcdefghijk" (.int 22) _ _
      (by decide) (by decide) (by decide)).1 (200 * 1024 * 1024) rfl (by decide),
    (c1_format_policy "https://www.youtube.com/watch?v=abcdefghijk" (.int 22) _ _
      (by decide) (by decide) (by decide)).2.1 rfl (by decide),
    (c1_format_policy "https://www.youtube.com/watch?v=abcdefghijk" (.int 22) _ _
      (by decide) (by decide) (by decide)).2.2 1000 rfl (by decide) (by decide)⟩

/-! ### Claim C2 -/

/-- C2: the code leaks its transient storage.  On a fully successful
`/download` (response 200, file delivered) the request created one temporary
directory and removed none, and the teardown hook `cleanup_temp_files`
(whose body is `pass`) changes nothing; the same holds on the failure path
after acquisition (`stream.download` raising).  This contradicts the claim
that every transient destination is released by the time the request
completes — and contradicts the source's own docstring "Clean up temporary
files after request". -/
theorem c2_temp_dir_never_released :
    (download_video (mkDlReq "https://www.youtube.com/watch?v=abcdefghijk" (.int 18)
        (.ok (some ⟨true, some "video/mp4", some "720p", 18, some 1000⟩))
        (.ok "/tmp/tmpabc/My Video.mp4"))).1.status = 200 ∧
    (download_video (mkDlReq "https://www.youtube.com/watch?v=abcdefghijk" (.int 18)
        (.ok (some ⟨true, some "video/mp4", some "720p", 18, some 1000⟩))
        (.ok "/tmp/tmpabc/My Video.mp4"))).2.tempDirsCreated = 1 ∧
    cleanup_temp_files
        (download_video (mkDlReq "https://www.youtube.com/watch?v=abcdefghijk" (.int 18)
          (.ok (some ⟨true, some "video/mp4", some "720p", 18, some 1000⟩))
          (.ok "/tmp/tmpabc/My Video.mp4"))).2 =
      (download_video (mkDlReq "https://www.youtube.com/watch?v=abcdefghijk" (.int 18)
        (.ok (some ⟨true, some "video/mp4", some "720p", 18, some 1000⟩))
        (.ok "/tmp/tmpabc/My Video.mp4"))).2 ∧
    (cleanup_temp_files
        (download_video (mkDlReq "https://www.youtube.com/watch?v=abcdefghijk" (.int 18)
          (.ok (some ⟨true, some "video/mp4", some "720p", 18, some 1000⟩))
          (.ok "/tmp/tmpabc/My Video.mp4"))).2).tempDirsRemoved = 0 ∧
    (download_video (mkDlReq "https://www.youtube.com/watch?v=abcdefghijk" (.int 18)
        (.ok (some ⟨true, some "video/mp4", some "720p", 18, some 1000⟩))
        (.error "disk full"))).2 = effTemp := by
  refine ⟨by decide, by decide, rfl, by decide, by decide⟩

/-! ### Claim C4 -/

/-- C4: a present but non-string `url` value is NOT answered with 400: the
source calls `data['url'].strip()` before any validation, the resulting
`AttributeError` falls to the blanket `except Exception`, and both routes
answer 500 "Internal server error".  The validator itself would have
returned false for a non-string (mapping to 400), but it is never reached —
the spec's 400 is clearly the intent and the early `.strip()` a slip. -/
theorem c4_nonstring_url_maps_to_500 :
    get_video_info ⟨true, .ok (.obj [("url", .int 5)]), .unavailable⟩ =
      ⟨500, .err "Internal server error"⟩ ∧
    validate_youtube_url (.int 5) = false ∧
    (download_video ⟨true, .ok (.obj [("url", .int 5), ("itag", .int 18)]),
        .ok none, .error ""⟩).1 =
      ⟨500, .err "Internal server error"⟩ := by
  refine ⟨by decide, by decide, by decide⟩

/-! ### Claim C9 -/

/-- C9 counterexample: the JSON boolean `true` is not a positive integer,
yet a `/download` request with `itag = true` is not rejected with 400 before
the resolver call: Python's `isinstance(True, int)` holds and `True > 0`, so
the pipeline calls the resolver (one resolver call) and answers 404 when no
stream matches. -/
theorem c9_bool_true_itag_not_rejected :
    download_video (mkDlReq "https://www.youtube.com/watch?v=abcdefghijk" (.bool true)
        (.ok none) (.error "boom")) =
      (⟨404, .err "Requested format not available"⟩, effResolved) ∧
    (download_video (mkDlReq "https://www.youtube.com/watch?v=abcdefghijk" (.bool true)
        (.ok none) (.error "boom"))).1.status ≠ 400 ∧
    (download_video (mkDlReq "https://www.youtube.com/watch?v=abcdefghijk" (.bool true)
        (.ok none) (.error "boom"))).2.resolverCalls = 1 := by
  refine ⟨by decide, by decide, by decide⟩

/-- C9 (amended): a `/download` itag value that is not integer-typed in
Python's sense (booleans count as integers, `True` as 1 and `False` as 0) or
is not positive is rejected with 400 (Invalid itag parameter) before any
resolver call (zero resolver calls, for every resolver outcome); the JSON
boolean `true`, counting as 1, passes instead. -/
theorem c9_itag_rejected_before_resolver (u : String) (iv : JVal)
    (res : ResolveDl) (dl : Except String String)
    (hvu : validate_youtube_url (.str (pyStripS u)) = true)
    (hbad : pyIsInt iv = false ∨ pyToInt iv ≤ 0) :
    download_video (mkDlReq u iv res dl) =
      (⟨400, .err "Invalid itag parameter"⟩, eff0) := by
  rcases hbad with hb | hb
  · simp +decide [download_video, mkDlReq, pyFalsy, pyContains, pyIndex, hvu, hb]
  · have hb2 : (pyToInt iv ≤ 0) = True := eq_true hb
    simp +decide [download_video, mkDlReq, pyFalsy, pyContains, pyIndex, hvu, hb2]

/-- C9 witness: `itag = -1`, `itag = 0` and a string itag are each rejected
with 400 and no resolver call. -/
theorem c9_itag_rejected_before_resolver_witness :
    download_video (mkDlReq "https://www.youtube.com/watch?v=abcdefghijk" (.int (-1))
        (.unavailable) (.error "e")) =
      (⟨400, .err "Invalid itag parameter"⟩, eff0) ∧
    download_video (mkDlReq "https://www.youtube.com/watch?v=abcdefghijk" (.int 0)
        (.ok none) (.error "e")) =
      (⟨400, .err "Invalid itag parameter"⟩, eff0) ∧
    download_video (mkDlReq "https://www.youtube.com/watch?v=abcdefghijk" (.str "18")
        (.ok none) (.error "e")) =
      (⟨400, .err "Invalid itag parameter"⟩, eff0) := by
  refine ⟨c9_itag_rejected_before_resolver _ _ _ _ (by decide) (Or.inr (by decide)),
    c9_itag_rejected_before_resolver _ _ _ _ (by decide) (Or.inr (by decide)),
    c9_itag_rejected_before_resolver _ _ _ _ (by decide) (Or.inl (by decide))⟩

/-! ### Claim C10 -/

/-- C10: a `/download` request whose itag is the JSON boolean `true` passes
the itag validation — the check treats booleans as integers
(`isinstance(True, int)` is true and `True` equals 1, which is positive) —
and the pipeline proceeds to stream resolution (exactly one resolver call,
for every resolver outcome). -/
theorem c10_bool_true_itag_passes (u : String) (res : ResolveDl)
    (dl : Except String String)
    (hvu : validate_youtube_url (.str (pyStripS u)) = true) :
    pyIsInt (.bool true) = true ∧ pyToInt (.bool true) = 1 ∧
    (download_video (mkDlReq u (.bool true) res dl)).2.resolverCalls = 1 := by
  refine ⟨rfl, rfl, ?_⟩
  have hred := download_video_resolver_stage u (.bool true) res dl hvu rfl (by decide)
  rw [hred]
  rcases res with _ | m | found
  · rfl
  · rfl
  · cases found with
    | none => rfl
    | some st =>
      dsimp only
      split
      · rfl
      · split
        · rfl
        · cases dl <;> rfl

/-- C10 witness: the boolean-itag request at a concrete URL and resolver
outcome. -/
theorem c10_bool_true_itag_passes_witness :
    pyIsInt (.bool true) = true ∧ pyToInt (.bool true) = 1 ∧
    (download_video (mkDlReq "https://www.youtube.com/watch?v=abcdefghijk" (.bool true)
        (.ok (some ⟨true, some "video/mp4", some "360p", 1, some 1000⟩))
        (.ok "/tmp/t/v.mp4"))).2.resolverCalls = 1 :=
  c10_bool_true_itag_passes "https://www.youtube.com/watch?v=abcdefghijk"
    (.ok (some ⟨true, some "video/mp4", some "360p", 1, some 1000⟩))
    (.ok "/tmp/t/v.mp4") (by decide)

/-! ### Claim C3 -/

/-- C3 counterexample: `youtu.com/watch?v=abcdefghijk` is not a standard
watch, shortened, or embed link of the platform (the domain `youtu.com` does
not exist among them), yet the validator returns true, because the regex
pairs any domain alternative with any TLD alternative and only matches a
prefix.  So "for every string not matching one of these recognized
video-URL shapes it returns false" is false. -/
theorem c3_validator_accepts_unrecognized :
    validate_youtube_url (.str "youtu.com/watch?v=abcdefghijk") = true ∧
    specRecognized "youtu.com/watch?v=abcdefghijk".data = false := by
  constructor <;> decide

/-- C3 (amended): the validator accepts every well-formed standard watch,
shortened, or embed link containing an 11-character video-id token, and it
fails closed (false, without throwing) on empty and non-string input; but it
also accepts further strings outside those shapes (any domain/TLD pairing of
the regex's alternatives followed by an 11-character token, matched only as
a prefix). -/
theorem c3_validator_accepts_recognized :
    (∀ s : List Char, specRecognized s = true → ytMatchL s = true) ∧
    validate_youtube_url (.str "") = false ∧
    validate_youtube_url (.int 7) = false ∧
    validate_youtube_url .null = false ∧
    validate_youtube_url (.bool true) = false := by
  refine ⟨?_, rfl, rfl, rfl, rfl⟩
  intro s h
  unfold specRecognized at h
  rw [List.any_eq_true] at h
  obtain ⟨p, hp, h⟩ := h
  rw [List.any_eq_true] at h
  obtain ⟨w, hw, h⟩ := h
  rw [List.any_eq_true] at h
  obtain ⟨core, hcore, h⟩ := h
  cases hs : strip (p ++ w ++ core) s with
  | none => rw [hs] at h; exact absurd h (by simp)
  | some r =>
    rw [hs] at h
    have hseq : s = (p ++ w ++ core) ++ r := strip_eq_some hs
    have hid : idOk11 r = true := specIdOk_imp_idOk11 r (by simpa using h)
    have hcore3 : core = "youtube.com/watch?v=".data ∨ core = "youtu.be/".data ∨
        core = "youtube.com/embed/".data := by
      simpa [specCores] using hcore
    subst hseq
    rcases hcore3 with hc | hc | hc <;> subst hc
    · have hm := ytMatch_of_parts p w "youtube".data "com".data
        ("watch?v=".data ++ r) hp hw (by decide) (by decide) (check5_watch r hid)
      have heq : (p ++ w ++ "youtube.com/watch?v=".data) ++ r =
          p ++ w ++ "youtube".data ++ ".".data ++ "com".data ++ "/".data ++
            ("watch?v=".data ++ r) := by
        simp only [List.append_assoc]
        rfl
      rw [heq]
      exact hm
    · have hm := ytMatch_of_parts p w "youtu".data "be".data r hp hw
        (by decide) (by decide) (check5_of_idOk11 r hid)
      have heq : (p ++ w ++ "youtu.be/".data) ++ r =
          p ++ w ++ "youtu".data ++ ".".data ++ "be".data ++ "/".data ++ r := by
        simp only [List.append_assoc]
        rfl
      rw [heq]
      exact hm
    · have hm := ytMatch_of_parts p w "youtube".data "com".data
        ("embed/".data ++ r) hp hw (by decide) (by decide) (check5_embed r hid)
      have heq : (p ++ w ++ "youtube.com/embed/".data) ++ r =
          p ++ w ++ "youtube".data ++ ".".data ++ "com".data ++ "/".data ++
            ("embed/".data ++ r) := by
        simp only [List.append_assoc]
        rfl
      rw [heq]
      exact hm

/-- C3 witness: the amended acceptance direction applied to the concrete
standard watch link `https://www.youtube.com/watch?v=abcdefghijk`. -/
theorem c3_validator_accepts_recognized_witness :
    specRecognized "https://www.youtube.com/watch?v=abcdefghijk".data = true ∧
    ytMatchL "https://www.youtube.com/watch?v=abcdefghijk".data = true :=
  ⟨by decide, c3_validator_accepts_recognized.1 _ (by decide)⟩

/-! ### Claim C7 -/

/-- C7 counterexample: for the 101-character input `ab.` followed by 98 `x`s
(no unsafe characters), `sanitize_filename` returns 101 characters — the
claimed bound "length never exceeds 100" is false, because the truncation
step reattaches the whole 99-character extension to the 2-character base. -/
theorem c7_length_bound_fails :
    ¬ ((sanitize_filename ('a' :: 'b' :: '.' :: List.replicate 98 'x')).length ≤ 100) := by
  decide

/-- C7 (amended): the sanitizer's output contains none of the characters
`< > : " / \ | ? *`; its length is bounded by
`max 100 (90 + length of the extension)` rather than by 100 (the extension
is reattached whole, so only the base name is truncated to 90); and when the
substituted string is within 100 characters it is returned unchanged. -/
theorem c7_sanitize_props (x : List Char) :
    (sanitize_filename x).all (fun c => !badFsChar c) = true ∧
    (sanitize_filename x).length ≤ max 100 (90 + (splitext (subBad x)).2.length) ∧
    ((subBad x).length ≤ 100 → sanitize_filename x = subBad x) := by
  refine ⟨sanitize_noBad x, ?_, ?_⟩
  · unfold sanitize_filename
    by_cases h : 100 < (subBad x).length
    · simp only [h, if_true]
      refine le_max_of_le_right ?_
      rw [List.length_append]
      have : ((splitext (subBad x)).1.take 90).length ≤ 90 := by
        rw [List.length_take]; exact min_le_left _ _
      omega
    · simp only [h, if_false]
      exact le_max_of_le_left (by omega)
  · intro hle
    unfold sanitize_filename
    simp only [Nat.not_lt.mpr hle, if_false]

/-- C7 witness: the amended properties evaluated at the concrete input
`my<file>?.mp4`. -/
theorem c7_sanitize_props_witness :
    (sanitize_filename "my<file>?.mp4".data).all (fun c => !badFsChar c) = true ∧
    sanitize_filename "my<file>?.mp4".data = subBad "my<file>?.mp4".data := by
  refine ⟨(c7_sanitize_props "my<file>?.mp4".data).1,
    (c7_sanitize_props "my<file>?.mp4".data).2.2 (by decide)⟩

/-! ### Claim C8 -/

/-- C8 counterexample: for 90 dots, an `a`, a dot, and 20 `b`s (112
characters), one application of `sanitize_filename` yields 111 characters
(90 dots, a dot, 20 `b`s) and a second application yields just the 90 dots,
so `sanitize(sanitize(x)) ≠ sanitize(x)` — idempotence fails. -/
theorem c8_not_idempotent :
    sanitize_filename (sanitize_filename
        (List.replicate 90 '.' ++ 'a' :: '.' :: List.replicate 20 'b')) ≠
      sanitize_filename (List.replicate 90 '.' ++ 'a' :: '.' :: List.replicate 20 'b') := by
  decide

/-- C8 (amended): the sanitizer is a pure deterministic function, and it is
idempotent on every input whose sanitized result is at most 100 characters;
only inputs whose truncated result still exceeds 100 characters (possible
when the extension is longer than 10 characters) can shrink further on a
second application. -/
theorem c8_idempotent_of_short (x : List Char)
    (h : (sanitize_filename x).length ≤ 100) :
    sanitize_filename (sanitize_filename x) = sanitize_filename x := by
  have hnb : subBad (sanitize_filename x) = sanitize_filename x :=
    subBad_id_of_noBad _ (sanitize_noBad x)
  conv_lhs => rw [sanitize_filename]
  rw [hnb]
  simp only [Nat.not_lt.mpr h, if_false]

/-- C8 witness: idempotence at the concrete input `hello world.mp4`. -/
theorem c8_idempotent_of_short_witness :
    sanitize_filename (sanitize_filename "hello world.mp4".data) =
      sanitize_filename "hello world.mp4".data :=
  c8_idempotent_of_short "hello world.mp4".data (by decide)

/-! ### Claim C6 -/

/-- The `/info` formats loop builds exactly the allow-listed streams,
mapped to format entries, in order. -/
theorem mkFormats_eq (l : List Stream) :
    mkFormats l =
      (l.filter (fun s => ALLOWED_EXTENSIONS.contains (fileTypeOf s))).map fmtOf := by
  induction l with
  | nil => rfl
  | cons s rest ih =>
    simp only [mkFormats, List.filter_cons]
    cases h : ALLOWED_EXTENSIONS.contains (fileTypeOf s)
    · simp [h, ih]
    · simp [h, ih]

/-- C6: a successful `/info` response carries the video's title, length and
author together with exactly the resolver's progressive streams whose
container type is allow-listed, in the resolver's original order, each as
`{quality, type, itag, filesize}`; disallowed streams are silently dropped
(they simply do not appear — no per-stream error). -/
theorem c6_info_formats (u : String) (meta : Meta) (streams : List Stream)
    (hvu : validate_youtube_url (.str (pyStripS u)) = true)
    (hne : (streams.filter (fun s => s.progressive)).filter
        (fun s => ALLOWED_EXTENSIONS.contains (fileTypeOf s)) ≠ []) :
    get_video_info (mkInfoReq u (.ok meta streams)) =
      ⟨200, .infoBody meta.title meta.length meta.author
        (((streams.filter (fun s => s.progressive)).filter
            (fun s => ALLOWED_EXTENSIONS.contains (fileTypeOf s))).map fmtOf)⟩ := by
  have hred : get_video_info (mkInfoReq u (.ok meta streams)) =
      (if (mkFormats (streams.filter (fun s => s.progressive))).isEmpty then
        ⟨404, .err "No downloadable formats available"⟩
      else
        ⟨200, .infoBody meta.title meta.length meta.author
          (mkFormats (streams.filter (fun s => s.progressive)))⟩) := by
    simp +decide [get_video_info, mkInfoReq, pyFalsy, pyContains, pyIndex, hvu]
  rw [hred, mkFormats_eq]
  cases hL : (streams.filter (fun s => s.progressive)).filter
      (fun s => ALLOWED_EXTENSIONS.contains (fileTypeOf s)) with
  | nil => exact absurd hL hne
  | cons a l => simp

/-- C6 witness: a concrete stream list with an allow-listed progressive mp4,
a progressive mov (silently dropped), and a non-progressive mp4 (filtered
out by the progressive filter); the response keeps exactly the first. -/
theorem c6_info_formats_witness :
    get_video_info (mkInfoReq "https://www.youtube.com/watch?v=abcdefghijk"
        (.ok ⟨"T", 10, "A"⟩
          [⟨true, some "video/mp4", some "720p", 18, some 1000⟩,
           ⟨true, some "video/mov", some "480p", 19, some 5000⟩,
           ⟨false, some "video/mp4", some "1080p", 137, some 9999⟩])) =
      ⟨200, .infoBody "T" 10 "A" [⟨"720p", "mp4", 18, some 1000⟩]⟩ := by
  have h := c6_info_formats "https://www.youtube.com/watch?v=abcdefghijk" ⟨"T", 10, "A"⟩
    [⟨true, some "video/mp4", some "720p", 18, some 1000⟩,
     ⟨true, some "video/mov", some "480p", 19, some 5000⟩,
     ⟨false, some "video/mp4", some "1080p", 137, some 9999⟩]
    (by decide) (by decide)
  rw [h]
  decide

/-! ### Claim C5 -/

/-- C5 counterexample: exception text does reach the response body.  When
`request.get_json()` raises `BadRequest` with the JSON parser's message, the
route's `except BadRequest` handler returns `jsonify({'error': str(e)})`, so
the parser's exception text — not one of the code's fixed generic messages —
is the body; likewise the 400 error handler `bad_request` embeds
`str(error)` verbatim in its `message` field. -/
theorem c5_exception_text_reaches_body :
    get_video_info ⟨true,
        .error "Failed to decode JSON object: Expecting value - line 1 column 1",
        .unavailable⟩ =
      ⟨400, .err "Failed to decode JSON object: Expecting value - line 1 column 1"⟩ ∧
    "Failed to decode JSON object: Expecting value - line 1 column 1" ∉ genericMsgs ∧
    bad_request "ZeroDivisionError: division by zero" =
      ⟨400, .errPair "Bad request" "ZeroDivisionError: division by zero"⟩ ∧
    "ZeroDivisionError: division by zero" ∉ genericMsgs := by
  refine ⟨by decide, by decide, rfl, by decide⟩

/-- C5 (amended): every message string either route handler places in a
response body is one of the source's fixed literals — in particular every
unanticipated exception maps to 500 with the generic "Internal server
error" — EXCEPT that the text of the `BadRequest` raised while parsing the
request body (`request.get_json()`) is echoed verbatim into the 400
response, so exception text from the parsing layer can reach the caller. -/
theorem c5_error_messages_characterized :
    (∀ (req : InfoReq) (m : String), m ∈ bodyMsgs (get_video_info req).body →
       m ∈ genericMsgs ∨ req.getJson = .error m) ∧
    (∀ (req : DlReq) (m : String), m ∈ bodyMsgs (download_video req).1.body →
       m ∈ genericMsgs ∨ req.getJson = .error m) := by
  constructor
  · intro req m hm
    rcases req with ⟨j, gj, res⟩
    cases j
    · simp [get_video_info, bodyMsgs] at hm
      subst hm
      left
      decide
    · cases gj with
      | error pm =>
        simp [get_video_info, bodyMsgs] at hm
        subst hm
        right
        rfl
      | ok data =>
        simp only [get_video_info, Bool.not_true] at hm
        rw [if_neg (by simp)] at hm
        by_cases hfd : pyFalsy data = true
        · rw [if_pos hfd] at hm
          simp [bodyMsgs] at hm
          subst hm
          left
          decide
        · rw [if_neg hfd] at hm
          cases hpc : pyContains data "url" with
          | error e =>
            rw [hpc] at hm
            simp [bodyMsgs] at hm
            subst hm
            left
            decide
          | ok hasUrl =>
            rw [hpc] at hm
            dsimp only at hm
            cases hasUrl with
            | false =>
              simp [bodyMsgs] at hm
              subst hm
              left
              decide
            | true =>
              rw [if_neg (by simp)] at hm
              cases hpi : pyIndex data "url" with
              | error e =>
                rw [hpi] at hm
                simp [bodyMsgs] at hm
                subst hm
                left
                decide
              | ok v =>
                rw [hpi] at hm
                dsimp only at hm
                cases v with
                | str s =>
                  dsimp only at hm
                  cases hvv : validate_youtube_url (.str (pyStripS s)) with
                  | false =>
                    rw [hvv] at hm
                    simp [bodyMsgs] at hm
                    subst hm
                    left
                    decide
                  | true =>
                    rw [hvv] at hm
                    rw [if_neg (by simp)] at hm
                    cases res with
                    | unavailable =>
                      simp [bodyMsgs] at hm
                      subst hm
                      left
                      decide
                    | regexErr =>
                      simp [bodyMsgs] at hm
                      subst hm
                      left
                      decide
                    | accessErr e =>
                      simp [bodyMsgs] at hm
                      subst hm
                      left
                      decide
                    | streamsErr meta e =>
                      simp [bodyMsgs] at hm
                      subst hm
                      left
                      decide
                    | ok meta streams =>
                      by_cases hE :
                          (mkFormats (streams.filter (fun s => s.progressive))).isEmpty = true
                      · simp [bodyMsgs, hE] at hm
                        subst hm
                        left
                        decide
                      · simp [bodyMsgs, hE] at hm
                | null => simp [bodyMsgs] at hm; subst hm; left; decide
                | bool b => simp [bodyMsgs] at hm; subst hm; left; decide
                | int n => simp [bodyMsgs] at hm; subst hm; left; decide
                | obj kvs => simp [bodyMsgs] at hm; subst hm; left; decide
  · intro req m hm
    rcases req with ⟨j, gj, res, dl⟩
    cases j
    · simp [download_video, bodyMsgs] at hm
      subst hm
      left
      decide
    · cases gj with
      | error pm =>
        simp [download_video, bodyMsgs] at hm
        subst hm
        right
        rfl
      | ok data =>
        simp only [download_video, Bool.not_true] at hm
        rw [if_neg (by simp)] at hm
        by_cases hfd : pyFalsy data = true
        · rw [if_pos hfd] at hm
          simp [bodyMsgs] at hm
          subst hm
          left
          decide
        · rw [if_neg hfd] at hm
          cases hpc : pyContains data "url" with
          | error e =>
            rw [hpc] at hm
            simp [bodyMsgs] at hm
            subst hm
            left
            decide
          | ok hasUrl =>
            rw [hpc] at hm
            dsimp only at hm
            cases hasUrl with
            | false =>
              simp [bodyMsgs] at hm
              subst hm
              left
              decide
            | true =>
              rw [if_neg (by simp)] at hm
              cases hpc2 : pyContains data "itag" with
              | error e =>
                rw [hpc2] at hm
                simp [bodyMsgs] at hm
                subst hm
                left
                decide
              | ok hasItag =>
                rw [hpc2] at hm
                dsimp only at hm
                cases hasItag with
                | false =>
                  simp [bodyMsgs] at hm
                  subst hm
                  left
                  decide
                | true =>
                  rw [if_neg (by simp)] at hm
                  cases hpi : pyIndex data "url" with
                  | error e =>
                    rw [hpi] at hm
                    simp [bodyMsgs] at hm
                    subst hm
                    left
                    decide
                  | ok v =>
                    rw [hpi] at hm
                    dsimp only at hm
                    cases v with
                    | str s =>
                      dsimp only at hm
                      cases hpi2 : pyIndex data "itag" with
                      | error e =>
                        rw [hpi2] at hm
                        simp [bodyMsgs] at hm
                        subst hm
                        left
                        decide
                      | ok itagV =>
                        rw [hpi2] at hm
                        dsimp only at hm
                        cases hvv : validate_youtube_url (.str (pyStripS s)) with
                        | false =>
                          rw [hvv] at hm
                          simp [bodyMsgs] at hm
                          subst hm
                          left
                          decide
                        | true =>
                          rw [hvv] at hm
                          rw [if_neg (by simp)] at hm
                          cases hbi : (!pyIsInt itagV || decide (pyToInt itagV ≤ 0)) with
                          | true =>
                            rw [hbi] at hm
                            simp [bodyMsgs] at hm
                            subst hm
                            left
                            decide
                          | false =>
                            rw [hbi] at hm
                            rw [if_neg (by simp)] at hm
                            cases res with
                            | unavailable =>
                              simp [bodyMsgs] at hm
                              subst hm
                              left
                              decide
                            | accessErr e =>
                              simp [bodyMsgs] at hm
                              subst hm
                              left
                              decide
                            | ok found =>
                              cases found with
                              | none =>
                                simp [bodyMsgs] at hm
                                subst hm
                                left
                                decide
                              | some st =>
                                dsimp only at hm
                                cases hsz : (match st.filesize with
                                    | some n => !(n == 0) && decide (MAX_DOWNLOAD_SIZE < n)
                                    | none => false) with
                                | true =>
                                  rw [hsz] at hm
                                  simp [bodyMsgs] at hm
                                  subst hm
                                  left
                                  decide
                                | false =>
                                  rw [hsz] at hm
                                  rw [if_neg (by simp)] at hm
                                  cases hty : ALLOWED_EXTENSIONS.contains (fileTypeOf st) with
                                  | false =>
                                    rw [hty] at hm
                                    simp [bodyMsgs] at hm
                                    subst hm
                                    left
                                    decide
                                  | true =>
                                    rw [hty] at hm
                                    rw [if_neg (by simp)] at hm
                                    cases dl with
                                    | error e =>
                                      simp [bodyMsgs] at hm
                                      subst hm
                                      left
                                      decide
                                    | ok fp =>
                                      simp [bodyMsgs] at hm
                    | null => simp [bodyMsgs] at hm; subst hm; left; decide
                    | bool b => simp [bodyMsgs] at hm; subst hm; left; decide
                    | int n => simp [bodyMsgs] at hm; subst hm; left; decide
                    | obj kvs => simp [bodyMsgs] at hm; subst hm; left; decide

/-- C5 witness: the characterization applied to a concrete request (empty
JSON object body) whose 400 message is one of the fixed literals. -/
theorem c5_error_messages_characterized_witness :
    "Missing 'url' parameter" ∈ genericMsgs ∨
      (Except.ok (JVal.obj []) : Except String JVal) =
        .error "Missing 'url' parameter" :=
  c5_error_messages_characterized.1 ⟨true, .ok (.obj []), .unavailable⟩
    "Missing 'url' parameter" (by decide)

end YtApi
